import Mathlib

/-!
Shallow embedding of the huge-csv-sorter core (src/sorter.ts) and proofs of
the specification claims.  Strings are modelled as lists of characters; the
JavaScript runtime behaviours that matter (string truthiness, template
literals, `Array.prototype.join`/`String.prototype.split`, `try/finally`,
`fs.rmSync` throwing on a missing path) are embedded explicitly.
-/

namespace CsvSorter

/-- JavaScript strings are modelled as lists of characters. -/
abbrev Str := List Char

/-- Convert a Lean string literal into the character-list model. -/
def str (s : String) : Str := s.data

/-! ## Data model (sorter.ts type declarations, after normalization) -/

/-- `ColumnType` from sorter.ts. -/
inductive ColumnType where
  | string
  | number
deriving DecidableEq, Repr

/-- `SchemaColumn` from sorter.ts: `type` is optional. -/
structure SchemaColumn where
  name : Str
  type : Option ColumnType
deriving DecidableEq, Repr

/-- `SortDirection` from sorter.ts. -/
inductive SortDirection where
  | ASC
  | DESC
deriving DecidableEq, Repr

/-- `SortedColumn` from sorter.ts: `direction` is optional. -/
structure SortedColumn where
  name : Str
  direction : Option SortDirection
deriving DecidableEq, Repr

/-- `FileOptions` from sorter.ts: `delimiter` is optional. -/
structure FileOptions where
  filename : Str
  delimiter : Option Str
deriving DecidableEq, Repr

/-- `SQLiteOptions` from sorter.ts. -/
structure SQLiteOptions where
  filename : Str
  keepDB : Option Bool
  cli : Option Str
  createIndex : Option Bool
deriving DecidableEq, Repr

/-- The normalized `SorterOptions` from sorter.ts (the logger is modelled as
a log trace in the system state instead of a callback; `where` is renamed
`whereClause` because `where` is a Lean keyword). -/
structure SorterOptions where
  source : FileOptions
  destination : FileOptions
  schema : List SchemaColumn
  select : List Str
  orderBy : List SortedColumn
  whereClause : Option Str
  offset : Option Int
  limit : Option Int
  sqlite : SQLiteOptions
deriving DecidableEq, Repr

/-- JavaScript truthiness of an optional number (`undefined` and `0` are
falsy). -/
def truthyNum : Option Int → Bool
  | none => false
  | some n => n != 0

/-- JavaScript truthiness of an optional string (`undefined` and `""` are
falsy). -/
def truthyStr : Option Str → Bool
  | none => false
  | some s => !s.isEmpty

/-! ## Option normalization (convertFileOptions / convertSchema) -/

/-- `convertFileOptions` from sorter.ts: a bare filename string becomes a
`FileOptions` with no delimiter. -/
def convertFileOptions : Str ⊕ FileOptions → FileOptions
  | Sum.inl s => { filename := s, delimiter := none }
  | Sum.inr f => f

/-- `convertSchema` from sorter.ts (applied to each `orderBy` entry): a bare
column name becomes a `SortedColumn` with no direction. -/
def convertSchema : Str ⊕ SortedColumn → SortedColumn
  | Sum.inl s => { name := s, direction := none }
  | Sum.inr c => c

/-- `convertSelect` from sorter.ts (applied to each `schema` entry): a bare
column name becomes a `SchemaColumn` with no type. -/
def convertSelect : Str ⊕ SchemaColumn → SchemaColumn
  | Sum.inl s => { name := s, type := none }
  | Sum.inr c => c

/-! ## Identifier quoting (idValidator / toColumnName) -/

/-- First character of the `idValidator` regular expression: `[A-Za-z_]`. -/
def isIdentStart (c : Char) : Bool := c.isAlpha || c = '_'

/-- Subsequent characters of `idValidator`: `[A-Za-z0-9_]`. -/
def isIdentChar (c : Char) : Bool := c.isAlpha || c.isDigit || c = '_'

/-- `isValidIdentifier` from sorter.ts: test of the anchored regular
expression `^[A-Za-z_]([A-Za-z0-9_])*$`. -/
def isValidIdentifier : Str → Bool
  | [] => false
  | c :: rest => isIdentStart c && rest.all isIdentChar

/-- `name.replaceAll(Char.ofNat 34, two quotes)` — each double-quote
character is doubled. -/
def escapeQuotes : Str → Str
  | [] => []
  | c :: rest => if c = '"' then '"' :: '"' :: escapeQuotes rest else c :: escapeQuotes rest

/-- `toColumnName` from sorter.ts. -/
def toColumnName (name : Str) : Str :=
  if isValidIdentifier name then name
  else '"' :: (escapeQuotes name ++ ['"'])

/-! ## The column-mismatch pattern (colMismatchWarning)

`colMismatchWarning = /expected d+ columns but found d+ - extras ignored/`
(with `d` the digit class).  `RegExp.test` searches for a match at any
position.  Because each digit group is followed by a non-digit character in
the pattern, maximal-munch digit parsing is equivalent to the regular
expression's backtracking semantics. -/

/-- Consume an exact literal from the front of the input. -/
def dropLit : Str → Str → Option Str
  | [], l => some l
  | _ :: _, [] => none
  | c :: p, x :: l => if c = x then dropLit p l else none

/-- Consume one or more digits (`d+`) from the front of the input. -/
def dropDigits (l : Str) : Option Str :=
  let ds := l.takeWhile Char.isDigit
  if ds.isEmpty then none else some (l.dropWhile Char.isDigit)

/-- Does the column-mismatch pattern match starting exactly here? -/
def colMismatchAt (l : Str) : Bool :=
  (do
    let r1 ← dropLit (str "expected ") l
    let r2 ← dropDigits r1
    let r3 ← dropLit (str " columns but found ") r2
    let r4 ← dropDigits r3
    let _ ← dropLit (str " - extras ignored") r4
    pure ()).isSome

/-- `colMismatchWarning.test line`: the pattern matches at some position. -/
def colMismatchTest : Str → Bool
  | [] => colMismatchAt []
  | l@(_ :: rest) => colMismatchAt l || colMismatchTest rest

/-! ## Process driver (execSqlite) -/

/-- The explanatory line pushed when a column mismatch is detected. -/
def colMismatchExplanation : Str :=
  str "SQLite command was killed because a column mismatch between schema and inputs was detected."

/-- In-memory state of the driver: the accumulated stderr lines and whether
`command.kill()` has been invoked. -/
structure DriverState where
  errors : List Str
  killed : Bool
deriving DecidableEq, Repr

/-- Driver state before any subprocess output has been received. -/
def initDriverState : DriverState := { errors := [], killed := false }

/-- The `stderr` data callback of `execSqlite`: split the chunk on newlines,
append all lines to the error buffer, and if any line matches the
column-mismatch pattern, append the explanatory line and kill the
subprocess. -/
def onStderrData (st : DriverState) (chunk : Str) : DriverState :=
  let lines := chunk.splitOn '\n'
  let errors := st.errors ++ lines
  if lines.any colMismatchTest then
    { errors := errors ++ [colMismatchExplanation], killed := true }
  else
    { errors := errors, killed := st.killed }

/-- Settlement of the promise returned by `execSqlite`. -/
inductive DriverResult where
  | resolved (code : Int)
  | rejectedSqlite (message : Str)
  | rejectedLaunch (osError : Str)
deriving DecidableEq, Repr

/-- JavaScript template rendering of the `number | null` exit code. -/
def renderExitCode : Option Int → Str
  | some n => (toString n).data
  | none => str "null"

/-- `errors.slice(0, 20).join(newline)`. -/
def joinLines (ls : List Str) : Str := (str "\n").intercalate ls

/-- The `close` callback of `execSqlite`: exit code 0 resolves with that
code, anything else rejects with the composite message. -/
def onCloseEvent (st : DriverState) (code : Option Int) : DriverResult :=
  match code with
  | some 0 => DriverResult.resolved 0
  | _ =>
    DriverResult.rejectedSqlite
      (str "SQLite error (Exit code = " ++ renderExitCode code ++ str "):\n"
        ++ joinLines (st.errors.take 20))

/-- Asynchronous events delivered to the driver's callbacks. -/
inductive DriverEvent where
  | stdoutData (chunk : Str)
  | stderrData (chunk : Str)
  | closed (code : Option Int)
  | launchError (osError : Str)
deriving DecidableEq, Repr

/-- Is the event a stream-data event (as opposed to a terminal event)? -/
def isStreamEvent : DriverEvent → Bool
  | DriverEvent.stdoutData _ => true
  | DriverEvent.stderrData _ => true
  | _ => false

/-- Run the driver's callbacks over a sequence of events; the promise
settles at the first terminal (`close` or `error`) event. -/
def driverRun : DriverState → List DriverEvent → Option DriverResult
  | _, [] => none
  | st, e :: rest =>
    match e with
    | DriverEvent.stdoutData _ => driverRun st rest
    | DriverEvent.stderrData chunk => driverRun (onStderrData st chunk) rest
    | DriverEvent.closed code => some (onCloseEvent st code)
    | DriverEvent.launchError err => some (DriverResult.rejectedLaunch err)

/-- `execSqlite` as a function of the subprocess's event sequence. -/
def execSqlite (events : List DriverEvent) : Option DriverResult :=
  driverRun initDriverState events

/-- The driver state after a sequence of stream events. -/
def accumState : DriverState → List DriverEvent → DriverState
  | st, [] => st
  | st, DriverEvent.stderrData chunk :: rest => accumState (onStderrData st chunk) rest
  | st, _ :: rest => accumState st rest

/-! ## Script generation (Sorter.generateScript) -/

/-- JavaScript whitespace, as used by `String.prototype.trim`. -/
def jsWhitespace (c : Char) : Bool :=
  c ∈ [' ', '\t', '\n', '\r', '\x0b', '\x0c', '\u00A0', '\u1680', '\u2000',
       '\u2001', '\u2002', '\u2003', '\u2004', '\u2005', '\u2006', '\u2007',
       '\u2008', '\u2009', '\u200A', '\u2028', '\u2029', '\u202F', '\u205F',
       '\u3000', '\uFEFF']

/-- `String.prototype.trim`. -/
def jsTrim (s : Str) : Str :=
  ((s.dropWhile jsWhitespace).reverse.dropWhile jsWhitespace).reverse

/-- Rendering of a sort direction token. -/
def dirToken : SortDirection → Str
  | SortDirection.ASC => str "ASC"
  | SortDirection.DESC => str "DESC"

/-- One entry of the order-by clause:
the template `name direction-or-empty`, trimmed. -/
def orderByItem (col : SortedColumn) : Str :=
  jsTrim (toColumnName col.name ++ str " "
    ++ (match col.direction with
        | some d => dirToken d
        | none => []))

/-- `options.orderBy.map(orderByItem).join(comma-space)`. -/
def orderByClause (orderBy : List SortedColumn) : Str :=
  (str ", ").intercalate (orderBy.map orderByItem)

/-- `options.orderBy.map(col => toColumnName(col.name)).join(comma-space)`. -/
def indexedCols (orderBy : List SortedColumn) : Str :=
  (str ", ").intercalate (orderBy.map (fun col => toColumnName col.name))

/-- The SQLite type token for a schema column. -/
def colTypeToken : Option ColumnType → Str
  | some ColumnType.number => str "NUMERIC"
  | some ColumnType.string => str "TEXT"
  | none => str "TEXT"

/-- The body of the schema `for` loop: one column-definition line per
schema entry, with a trailing comma on every line except the last
(`i < n - 1`, where `n` is the full schema length and `i` the index of the
current entry). -/
def schemaColLines (n : Nat) : Nat → List SchemaColumn → List Str
  | _, [] => []
  | i, col :: rest =>
    (str "  " ++ (toColumnName col.name ++ (str " " ++ (colTypeToken col.type
      ++ (if i < n - 1 then str "," else [])))))
      :: schemaColLines n (i + 1) rest

/-- The optional `CREATE TABLE` block (emitted when a schema was given). -/
def schemaSection (schema : List SchemaColumn) : List Str :=
  if schema.length > 0 then
    str "CREATE TABLE DATA(" :: (schemaColLines schema.length 0 schema ++ [str ");"])
  else []

/-- The separator directive for a delimiter (the tab branch of the source
contains a template with a tab escape, which JavaScript resolves to a
literal tab character, hence both branches produce the same bytes). -/
def sepDirectiveFor (d : Str) : Str :=
  if d = str "\t" then str ".separator \"\t\""
  else str ".separator \"" ++ (d ++ str "\"")

/-- Separator directives emitted before the import, guarded by the
JavaScript truthiness of `options.source.delimiter`. -/
def sourceSepLines : Option Str → List Str
  | none => []
  | some d => if d.isEmpty then [] else [sepDirectiveFor d]

/-- Separator directives emitted before the export: the destination
delimiter if truthy, else a reset to comma if the source delimiter was
truthy. -/
def destSepLines (destD srcD : Option Str) : List Str :=
  if truthyStr destD then
    match destD with
    | some d => [sepDirectiveFor d]
    | none => []
  else if truthyStr srcD then [str ".separator \",\""]
  else []

/-- The import directive, with the skip-first-line flag exactly when a
schema was supplied. -/
def importLine (schemaLen : Nat) (srcFile : Str) : Str :=
  str ".import " ++ ((if schemaLen > 0 then str "--skip 1 " else [])
    ++ (str "\"" ++ (srcFile ++ str "\" DATA")))

/-- The optional index-creation statement
(`options.sqlite.createIndex !== false`). -/
def indexLines (o : SorterOptions) : List Str :=
  if o.sqlite.createIndex ≠ some false then
    [str "create index DATA_IDX on DATA (" ++ (indexedCols o.orderBy ++ str ");")]
  else []

/-- JavaScript template rendering of an optional number. -/
def renderNum : Option Int → Str
  | some n => (toString n).data
  | none => str "undefined"

/-- The projection: `*` when no `select` was given, else the quoted,
comma-joined selected columns. -/
def selectColumns (sel : List Str) : Str :=
  if sel.length > 0 then (str ", ").intercalate (sel.map toColumnName)
  else str "*"

/-- The tail of the query statement, after the leading `select ` token:
projection, table, optional where, order-by, optional limit and offset,
final semicolon. -/
def selectTail (o : SorterOptions) : Str :=
  selectColumns o.select ++ (str " from DATA"
    ++ ((match o.whereClause with
         | some w => if w.isEmpty then [] else str " where " ++ w
         | none => [])
      ++ (str " order by " ++ (orderByClause o.orderBy
        ++ ((if truthyNum o.limit then str " limit " ++ renderNum o.limit else [])
          ++ ((if truthyNum o.offset then str " offset " ++ renderNum o.offset else [])
            ++ str ";"))))))

/-- The full query statement pushed as the last line before `.quit`. -/
def selectStatement (o : SorterOptions) : Str :=
  str "select " ++ selectTail o

/-- `Sorter.generateScript`, as the list of pushed lines. -/
def generateScriptLines (o : SorterOptions) : List Str :=
  schemaSection o.schema
    ++ ([str ".mode csv"]
      ++ (sourceSepLines o.source.delimiter
        ++ ([importLine o.schema.length o.source.filename]
          ++ (indexLines o
            ++ (destSepLines o.destination.delimiter o.source.delimiter
              ++ ([str ".headers on",
                   str ".output \"" ++ (o.destination.filename ++ str "\"")]
                ++ ([selectStatement o]
                  ++ [str ".quit"])))))))

/-- `Sorter.generateScript`: the pushed lines joined by newlines. -/
def generateScript (o : SorterOptions) : Str :=
  (str "\n").intercalate (generateScriptLines o)

/-! ## File system and orchestration (Sorter.execute / validate / cleanup)

The file system is a list of existing paths (files and folders); the logger
is a trace of emitted lines.  `fs.existsSync` is membership,
`fs.rmSync` erases the path and throws `ENOENT` when it does not exist. -/

/-- Errors thrown by the orchestrator and its helpers. -/
inductive SortError where
  | missingFile (filename : Str)
  | missingFolder (folder : Str)
  | missingOrderBy
  | missingLimit
  | enoent (filename : Str)
  | engineFailure (message : Str)
  | launchFailure (osError : Str)
deriving DecidableEq, Repr

/-- System state: the set of existing paths and the log trace. -/
structure SysState where
  files : List Str
  log : List Str
deriving DecidableEq, Repr

/-- Append one line to the log (the `options.logger` callback). -/
def logMsg (st : SysState) (m : Str) : SysState :=
  { st with log := st.log ++ [m] }

/-- `fs.rmSync`: removes the path, throwing `ENOENT` when it is absent. -/
def rmSync (st : SysState) (f : Str) : SysState × Option SortError :=
  if f ∈ st.files then ({ st with files := st.files.erase f }, none)
  else (st, some (SortError.enoent f))

/-- The scanning loop of Node's POSIX `path.dirname`: walk indices from
`i` down to `1` looking for the last slash that precedes a non-slash tail
(`matchedSlash` skips the trailing run of slashes). -/
def dirnameScan (p : Str) : Nat → Bool → Option Nat
  | 0, _ => none
  | i + 1, matchedSlash =>
    if p.getD (i + 1) ' ' = '/' then
      if matchedSlash then dirnameScan p i matchedSlash
      else some (i + 1)
    else dirnameScan p i false

/-- Node's POSIX `path.dirname`. -/
def dirname (p : Str) : Str :=
  if p.length = 0 then str "."
  else
    let hasRoot := p.getD 0 ' ' = '/'
    match dirnameScan p (p.length - 1) true with
    | none => if hasRoot then str "/" else str "."
    | some e => if hasRoot ∧ e = 1 then str "//" else p.take e

/-- `validateFileExists` from sorter.ts. -/
def validateFileExists (st : SysState) (filename : Str) : Option SortError :=
  if filename ∈ st.files then none else some (SortError.missingFile filename)

/-- `validateFolderExists` from sorter.ts (`folder` is always a nonempty
string for Node's `dirname`, but the JavaScript truthiness guard is kept). -/
def validateFolderExists (st : SysState) (filename : Str) : Option SortError :=
  let folder := dirname filename
  if !folder.isEmpty && !(st.files.contains folder) then
    some (SortError.missingFolder folder)
  else none

/-- The pure checks at the start of `Sorter.validate`, in source order:
source file exists, destination folder exists, sqlite folder exists (the
guard `if (options.sqlite)` is always true because the normalized options
always carry a sqlite object), and non-empty `orderBy`. -/
def validateChecks (st : SysState) (o : SorterOptions) : Option SortError :=
  match validateFileExists st o.source.filename with
  | some e => some e
  | none =>
    match validateFolderExists st o.destination.filename with
    | some e => some e
    | none =>
      match validateFolderExists st o.sqlite.filename with
      | some e => some e
      | none =>
        if o.orderBy.length = 0 then some SortError.missingOrderBy else none

/-- The guarded deletion pattern of `Sorter.validate`: if the path exists,
log the given message and remove the path. -/
def deleteIfExists (st : SysState) (message : Str) (f : Str) :
    SysState × Option SortError :=
  if f ∈ st.files then rmSync (logMsg st message) f
  else (st, none)

/-- The two pre-run deletions of `Sorter.validate`: destination file first,
then the SQLite database file. -/
def validateDeletes (st : SysState) (o : SorterOptions) :
    SysState × Option SortError :=
  match deleteIfExists st (str "Delete destination " ++ o.destination.filename)
      o.destination.filename with
  | (st1, some e) => (st1, some e)
  | (st1, none) =>
    deleteIfExists st1 (str "Delete SQLite db " ++ o.sqlite.filename)
      o.sqlite.filename

/-- `Sorter.validate`: checks, then deletions, then the offset/limit
precondition (`options.offset && !options.limit`). -/
def validate (st : SysState) (o : SorterOptions) : SysState × Option SortError :=
  match validateChecks st o with
  | some e => (st, some e)
  | none =>
    match validateDeletes st o with
    | (st1, some e) => (st1, some e)
    | (st1, none) =>
      if truthyNum o.offset && !truthyNum o.limit then
        (st1, some SortError.missingLimit)
      else (st1, none)

/-- The engine (SQLite subprocess) as a black box: whether the run leaves a
database file behind, the lines it causes to be logged, and the outcome of
`execSqlite` (`none` = resolved). -/
structure EngineBehavior where
  createsDb : Bool
  engineLog : List Str
  result : Option SortError
deriving DecidableEq, Repr

/-- `Sorter.executeScript`: log the open event and the script (each line
prefixed with three spaces, after re-splitting the joined script on
newlines), then run the engine. -/
def executeScript (st : SysState) (o : SorterOptions) (engine : EngineBehavior) :
    SysState × Option SortError :=
  let st := logMsg st (str "Open DB " ++ o.sqlite.filename)
  let st := logMsg st (str "Execute script:")
  let st := { st with
    log := st.log ++ ((generateScript o).splitOn '\n').map (fun l => str "   " ++ l) }
  let st := { st with log := st.log ++ engine.engineLog }
  let st :=
    if engine.createsDb then { st with files := o.sqlite.filename :: st.files }
    else st
  (st, engine.result)

/-- `Sorter.cleanup`: log the cleanup event, and unless `keepDB === true`,
log the deletion and remove the database file (unconditionally — `rmSync`
throws when the file is absent). -/
def cleanup (st : SysState) (o : SorterOptions) : SysState × Option SortError :=
  let st := logMsg st (str "Cleanup")
  if o.sqlite.keepDB ≠ some true then
    rmSync (logMsg st (str "Delete DB " ++ o.sqlite.filename)) o.sqlite.filename
  else (st, none)

/-- `Sorter.execute`: validation (outside the `try`), then script
generation (pure), then `try { executeScript } finally { cleanup }` with
JavaScript semantics: an error thrown by the `finally` block replaces the
pending error of the `try` block. -/
def execute (st : SysState) (o : SorterOptions) (engine : EngineBehavior) :
    SysState × Option SortError :=
  match validate st o with
  | (st1, some e) => (st1, some e)
  | (st1, none) =>
    let res := executeScript st1 o engine
    let cln := cleanup res.1 o
    match cln.2 with
    | some ce => (cln.1, some ce)
    | none => (cln.1, res.2)

/-! ## General helper lemmas -/

theorem escapeQuotes_length (s : Str) : s.length ≤ (escapeQuotes s).length := by
  induction s with
  | nil => simp [escapeQuotes]
  | cons c t ih =>
    by_cases hc : c = '"' <;> simp [escapeQuotes, hc] <;> omega

theorem ne_append_of_getElem (x a t : Str) (i : Nat) (hia : i < a.length)
    (h : x[i]? ≠ a[i]?) : x ≠ a ++ t := by
  intro he
  rw [he, List.getElem?_append_left hia] at h
  exact h rfl

theorem prefixOf_false_of_getElem (p l : Str) (i : Nat) (hi : i < p.length)
    (h : p[i]? ≠ l[i]?) : p.isPrefixOf l = false := by
  by_contra hb
  rw [Bool.not_eq_false, List.isPrefixOf_iff_prefix] at hb
  obtain ⟨t, ht⟩ := hb
  subst ht
  rw [List.getElem?_append_left hi] at h
  exact h rfl

theorem prefixOf_false_append (p a t : Str) (i : Nat) (hip : i < p.length)
    (hia : i < a.length) (h : p[i]? ≠ a[i]?) : p.isPrefixOf (a ++ t) = false := by
  apply prefixOf_false_of_getElem p _ i hip
  rw [List.getElem?_append_left hia]
  exact h

theorem prefixOf_append_of_prefixOf (p a t : Str) (h : p.isPrefixOf a = true) :
    p.isPrefixOf (a ++ t) = true := by
  rw [List.isPrefixOf_iff_prefix] at h ⊢
  exact h.trans (List.prefix_append a t)

/-! ## Claim C6: identifier quoting -/

/-- Claim C6: for every string `s`, the identifier-quoting function returns
`s` unchanged if and only if `s` matches the pattern `letter or underscore
followed by letters, digits or underscores`; otherwise it returns `s`
wrapped in double quotes with every embedded double quote doubled first. -/
theorem C6_quoting (s : Str) :
    (toColumnName s = s ↔ isValidIdentifier s = true)
    ∧ (isValidIdentifier s = false →
        toColumnName s = '"' :: (escapeQuotes s ++ ['"'])) := by
  refine ⟨⟨fun h => ?_, fun hv => by simp [toColumnName, hv]⟩,
    fun hv => by simp [toColumnName, hv]⟩
  by_contra hv
  rw [Bool.not_eq_true] at hv
  rw [toColumnName, if_neg (by simp [hv])] at h
  have hlen := congrArg List.length h
  have hge := escapeQuotes_length s
  simp [List.length_cons, List.length_append] at hlen
  omega

/-- Witness for C6: a name with a space is quoted, a bare identifier is
not. -/
theorem C6_witness :
    toColumnName (str "a b") = str "\"a b\""
    ∧ isValidIdentifier (str "a b") = false := by
  have h := (C6_quoting (str "a b")).2 (by decide)
  exact ⟨h.trans (by decide), by decide⟩

/-! ## Claim C4: column-mismatch detection in the stderr callback -/

/-- Claim C4 (amended): the stderr callback kills the subprocess and
appends the explanatory line exactly when some received line matches the
column-mismatch pattern `expected N columns but found M - extras ignored`
(note: no second `columns` token); chunks with no matching line leave the
kill state unchanged and only append the received lines. -/
theorem C4_mismatch_detection (st : DriverState) (chunk : Str) :
    ((chunk.splitOn '\n').any colMismatchTest = true →
      (onStderrData st chunk).killed = true
      ∧ colMismatchExplanation ∈ (onStderrData st chunk).errors)
    ∧ ((chunk.splitOn '\n').any colMismatchTest = false →
      (onStderrData st chunk).killed = st.killed
      ∧ (onStderrData st chunk).errors = st.errors ++ chunk.splitOn '\n') := by
  constructor
  · intro h
    simp [onStderrData, h]
  · intro h
    simp [onStderrData, h]

/-- Witness for C4: the diagnostic line that SQLite actually emits (as
recorded in the repository's own test) triggers the kill and the
explanatory line. -/
theorem C4_witness :
    (onStderrData initDriverState
        (str "x.csv:2: expected 2 columns but found 3 - extras ignored")).killed = true
    ∧ colMismatchExplanation ∈ (onStderrData initDriverState
        (str "x.csv:2: expected 2 columns but found 3 - extras ignored")).errors :=
  (C4_mismatch_detection initDriverState
    (str "x.csv:2: expected 2 columns but found 3 - extras ignored")).1 (by decide)

/-- Counterexample for C4 as stated: a line of the literal form
`expected N columns but found M columns - extras ignored` (with a second
`columns` token, as the claim spells the pattern) does not match the
code's pattern and does not kill the subprocess. -/
theorem C4_counterexample :
    colMismatchTest (str "expected 2 columns but found 3 columns - extras ignored") = false
    ∧ (onStderrData initDriverState
        (str "expected 2 columns but found 3 columns - extras ignored")).killed = false := by
  exact ⟨by decide, by decide⟩

/-! ## Claim C3: direction defaulting and order-by rendering -/

theorem not_ws_of_identStart (c : Char) (h : isIdentStart c = true) :
    jsWhitespace c = false := by
  by_contra hw
  rw [Bool.not_eq_false] at hw
  unfold jsWhitespace at hw
  have hmem := of_decide_eq_true hw
  fin_cases hmem <;> exact absurd h (by decide)

theorem not_ws_of_identChar (c : Char) (h : isIdentChar c = true) :
    jsWhitespace c = false := by
  by_contra hw
  rw [Bool.not_eq_false] at hw
  unfold jsWhitespace at hw
  have hmem := of_decide_eq_true hw
  fin_cases hmem <;> exact absurd h (by decide)

theorem dropWhile_eq_self_of_head (p : Char → Bool) :
    ∀ l : Str, (∀ c, l.head? = some c → p c = false) → l.dropWhile p = l
  | [], _ => rfl
  | c :: t, h => by simp [List.dropWhile_cons, h c rfl]

/-- `jsTrim` is the identity on a string whose first and last characters
are not whitespace. -/
theorem jsTrim_of_ends (l : Str)
    (hh : ∀ c, l.head? = some c → jsWhitespace c = false)
    (hl : ∀ c, l.getLast? = some c → jsWhitespace c = false) :
    jsTrim l = l := by
  unfold jsTrim
  rw [dropWhile_eq_self_of_head _ l hh]
  rw [dropWhile_eq_self_of_head _ l.reverse
    (fun c hc => hl c (by rwa [List.head?_reverse] at hc))]
  exact List.reverse_reverse l

/-- `jsTrim` removes a single appended trailing space from a string whose
first and last characters are not whitespace. -/
theorem jsTrim_append_space (xs : Str)
    (hh : ∀ c, xs.head? = some c → jsWhitespace c = false)
    (hl : ∀ c, xs.getLast? = some c → jsWhitespace c = false) :
    jsTrim (xs ++ [' ']) = xs := by
  cases xs with
  | nil => rfl
  | cons c t =>
    have hc : jsWhitespace c = false := hh c rfl
    unfold jsTrim
    rw [List.cons_append, List.dropWhile_cons, hc]
    simp only [if_false, Bool.false_eq_true]
    rw [List.reverse_cons]
    rw [show (t ++ [' ']).reverse ++ [c] = ' ' :: (t.reverse ++ [c]) by
      simp [List.reverse_append]]
    rw [List.dropWhile_cons]
    rw [show jsWhitespace ' ' = true from by decide]
    simp only [if_true]
    rw [show t.reverse ++ [c] = (c :: t).reverse from by simp [List.reverse_cons]]
    rw [dropWhile_eq_self_of_head _ (c :: t).reverse
      (fun d hd => hl d (by rwa [List.head?_reverse] at hd))]
    exact List.reverse_reverse (c :: t)

theorem toColumnName_ne_nil (name : Str) : toColumnName name ≠ [] := by
  unfold toColumnName
  split
  · rename_i hv
    intro h
    rw [h] at hv
    exact absurd hv (by decide)
  · simp

theorem toColumnName_head_not_ws (name : Str) :
    ∀ c, (toColumnName name).head? = some c → jsWhitespace c = false := by
  intro c hc
  unfold toColumnName at hc
  by_cases hv : isValidIdentifier name
  · rw [if_pos hv] at hc
    cases name with
    | nil => exact absurd hv (by simp [isValidIdentifier])
    | cons c0 t =>
      rw [List.head?_cons] at hc
      have hcc : c0 = c := by injection hc
      subst hcc
      have hstart : isIdentStart c0 = true := by
        simp [isValidIdentifier] at hv
        exact hv.1
      exact not_ws_of_identStart c0 hstart
  · rw [if_neg hv] at hc
    rw [List.head?_cons] at hc
    have hcc : '"' = c := by injection hc
    subst hcc
    decide

theorem toColumnName_last_not_ws (name : Str) :
    ∀ c, (toColumnName name).getLast? = some c → jsWhitespace c = false := by
  intro c hc
  unfold toColumnName at hc
  by_cases hv : isValidIdentifier name
  · rw [if_pos hv] at hc
    have hmem : c ∈ name := List.mem_of_mem_getLast? hc
    cases name with
    | nil => exact absurd hv (by simp [isValidIdentifier])
    | cons c0 t =>
      have hv' : isIdentStart c0 = true ∧ t.all isIdentChar = true := by
        simpa [isValidIdentifier] using hv
      rcases List.mem_cons.mp hmem with rfl | hmt
      · exact not_ws_of_identStart c hv'.1
      · exact not_ws_of_identChar c (by
          have := List.all_eq_true.mp hv'.2 c hmt
          simpa using this)
  · rw [if_neg hv] at hc
    rw [show ('"' :: (escapeQuotes name ++ ['"']))
        = ('"' :: escapeQuotes name) ++ ['"'] from by simp] at hc
    rw [List.getLast?_concat] at hc
    have hcc : '"' = c := by injection hc
    subst hcc
    decide

/-- Claim C3 (amended): the normalizer leaves a sort key given as a bare
name with no direction at all (not a default `ASC`); the generator renders
a key with no direction as its quoted name alone, and a key with an
explicit direction — including an explicit `ASC` — as its quoted name
followed by a space and that direction token. -/
theorem C3_direction_rendering (s name : Str) (d : SortDirection) :
    (convertSchema (Sum.inl s)).direction = none
    ∧ orderByItem { name := name, direction := none } = toColumnName name
    ∧ orderByItem { name := name, direction := some d }
        = toColumnName name ++ (' ' :: dirToken d) := by
  refine ⟨rfl, ?_, ?_⟩
  · show jsTrim (toColumnName name ++ str " " ++ []) = toColumnName name
    rw [List.append_nil]
    exact jsTrim_append_space (toColumnName name)
      (toColumnName_head_not_ws name) (toColumnName_last_not_ws name)
  · show jsTrim (toColumnName name ++ str " " ++ dirToken d) = _
    rw [List.append_assoc]
    rw [show str " " ++ dirToken d = ' ' :: dirToken d from rfl]
    apply jsTrim_of_ends
    · intro c hc
      cases hn : toColumnName name with
      | nil => exact absurd hn (toColumnName_ne_nil name)
      | cons c0 t =>
        rw [hn, List.cons_append, List.head?_cons] at hc
        have hcc : c0 = c := by injection hc
        subst hcc
        exact toColumnName_head_not_ws name c0 (by rw [hn]; rfl)
    · intro c hc
      rw [List.getLast?_append_of_ne_nil _ (by cases d <;> simp [dirToken, str])] at hc
      cases d with
      | ASC =>
        rw [show (' ' :: dirToken SortDirection.ASC).getLast? = some 'C' from rfl] at hc
        have hcc : 'C' = c := by injection hc
        subst hcc
        decide
      | DESC =>
        rw [show (' ' :: dirToken SortDirection.DESC).getLast? = some 'C' from rfl] at hc
        have hcc : 'C' = c := by injection hc
        subst hcc
        decide

/-! ## Orchestrator helper lemmas -/

theorem rmSync_log (st : SysState) (f : Str) : (rmSync st f).1.log = st.log := by
  unfold rmSync
  split <;> rfl

theorem deleteIfExists_snd (st : SysState) (m f : Str) :
    (deleteIfExists st m f).2 = none := by
  by_cases hf : f ∈ st.files
  · simp [deleteIfExists, hf, rmSync, logMsg]
  · simp [deleteIfExists, hf]

theorem deleteIfExists_files (st : SysState) (m f : Str) :
    (deleteIfExists st m f).1.files = st.files.erase f := by
  by_cases hf : f ∈ st.files
  · simp [deleteIfExists, hf, rmSync, logMsg]
  · simp [deleteIfExists, hf, List.erase_of_not_mem hf]

theorem validateDeletes_snd (st : SysState) (o : SorterOptions) :
    (validateDeletes st o).2 = none := by
  unfold validateDeletes
  rcases hd : deleteIfExists st (str "Delete destination " ++ o.destination.filename)
      o.destination.filename with ⟨st1, e1⟩
  have he1 : e1 = none := by
    have h := deleteIfExists_snd st (str "Delete destination " ++ o.destination.filename)
      o.destination.filename
    rw [hd] at h
    exact h
  subst he1
  simp only []
  exact deleteIfExists_snd st1 _ o.sqlite.filename

theorem validateDeletes_files (st : SysState) (o : SorterOptions) :
    (validateDeletes st o).1.files
      = (st.files.erase o.destination.filename).erase o.sqlite.filename := by
  unfold validateDeletes
  rcases hd : deleteIfExists st (str "Delete destination " ++ o.destination.filename)
      o.destination.filename with ⟨st1, e1⟩
  have he1 : e1 = none := by
    have h := deleteIfExists_snd st (str "Delete destination " ++ o.destination.filename)
      o.destination.filename
    rw [hd] at h
    exact h
  subst he1
  have hf1 : st1.files = st.files.erase o.destination.filename := by
    have h := deleteIfExists_files st (str "Delete destination " ++ o.destination.filename)
      o.destination.filename
    rw [hd] at h
    exact h
  simp only []
  rw [deleteIfExists_files st1 _ o.sqlite.filename, hf1]

/-! ## Claim C9: zero offset and zero limit are treated as absent -/

/-- Claim C9: an `offset` or `limit` equal to 0 behaves exactly as an
absent one, both in validation (a job with offset 0 and no limit passes
the missing-limit check) and in script generation (no offset/limit clause
is emitted). -/
theorem C9_zero_treated_absent (st : SysState) (o : SorterOptions) :
    (o.offset = some 0 →
      validate st o = validate st { o with offset := none }
      ∧ generateScriptLines o = generateScriptLines { o with offset := none })
    ∧ (o.limit = some 0 →
      validate st o = validate st { o with limit := none }
      ∧ generateScriptLines o = generateScriptLines { o with limit := none })
    ∧ (o.offset = some 0 → o.limit = none → validateChecks st o = none →
      (validate st o).2 = none) := by
  obtain ⟨src, dst, sch, sel, ob, w, off, lim, sq⟩ := o
  refine ⟨fun h => ?_, fun h => ?_, fun h hl hc => ?_⟩
  · simp only at h
    subst h
    exact ⟨rfl, rfl⟩
  · simp only at h
    subst h
    exact ⟨rfl, rfl⟩
  · simp only at h hl
    subst h
    subst hl
    unfold validate
    rw [hc]
    rcases hvd : validateDeletes st
        ⟨src, dst, sch, sel, ob, w, some 0, none, sq⟩ with ⟨st1, e1⟩
    have he1 : e1 = none := by
      have hh := validateDeletes_snd st ⟨src, dst, sch, sel, ob, w, some 0, none, sq⟩
      rw [hvd] at hh
      exact hh
    subst he1
    simp [truthyNum]

/-- Witness for C9: a concrete job with offset 0 and no limit passes
validation. -/
theorem C9_witness :
    (validate { files := [str "in.csv", str "."], log := [] }
      { source := { filename := str "in.csv", delimiter := none },
        destination := { filename := str "out.csv", delimiter := none },
        schema := [], select := [],
        orderBy := [{ name := str "id", direction := none }],
        whereClause := none, offset := some 0, limit := none,
        sqlite := { filename := str "db.sqlite", keepDB := none, cli := none,
                    createIndex := none } }).2 = none :=
  (C9_zero_treated_absent { files := [str "in.csv", str "."], log := [] }
    { source := { filename := str "in.csv", delimiter := none },
      destination := { filename := str "out.csv", delimiter := none },
      schema := [], select := [],
      orderBy := [{ name := str "id", direction := none }],
      whereClause := none, offset := some 0, limit := none,
      sqlite := { filename := str "db.sqlite", keepDB := none, cli := none,
                  createIndex := none } }).2.2 rfl rfl (by decide)

/-! ## Claim C7: driver promise settlement -/

theorem driverRun_append_stream (pre : List DriverEvent) :
    ∀ st : DriverState, pre.all isStreamEvent = true →
      ∀ tail, driverRun st (pre ++ tail) = driverRun (accumState st pre) tail := by
  induction pre with
  | nil => intro st _ tail; rfl
  | cons e rest ih =>
    intro st h tail
    have he : isStreamEvent e = true ∧ rest.all isStreamEvent = true := by
      simpa using h
    cases e with
    | stdoutData c => exact ih st he.2 tail
    | stderrData c => exact ih (onStderrData st c) he.2 tail
    | closed code => exact absurd he.1 (by simp [isStreamEvent])
    | launchError err => exact absurd he.1 (by simp [isStreamEvent])

theorem onCloseEvent_eq (acc : DriverState) (code : Option Int) :
    onCloseEvent acc code
      = if code = some 0 then DriverResult.resolved 0
        else DriverResult.rejectedSqlite
          (str "SQLite error (Exit code = " ++ renderExitCode code ++ str "):\n"
            ++ joinLines (acc.errors.take 20)) := by
  rcases code with _ | n
  · rw [if_neg (by simp)]; rfl
  · rcases n with n | n
    · cases n with
      | zero => rw [if_pos (show some (Int.ofNat 0) = some 0 from rfl)]; rfl
      | succ m =>
        rw [if_neg (by
          intro h
          rw [Option.some_inj] at h
          injection h with h2
          exact absurd h2 (Nat.succ_ne_zero m))]
        rfl
    · rw [if_neg (by simp)]; rfl

/-- Claim C7: after any run of stream events, a `close` event with code 0
resolves the promise with 0 (and only code 0 resolves); any other exit
code — including null — rejects with a message built from the exit code
and the first at most 20 accumulated stderr lines joined by newlines; a
launch failure rejects with the operating-system error unchanged. -/
theorem C7_driver_settlement (pre : List DriverEvent) (code : Option Int)
    (hpre : pre.all isStreamEvent = true) :
    (execSqlite (pre ++ [DriverEvent.closed code]) = some (DriverResult.resolved 0)
      ↔ code = some 0)
    ∧ (code ≠ some 0 →
      execSqlite (pre ++ [DriverEvent.closed code])
        = some (DriverResult.rejectedSqlite
            (str "SQLite error (Exit code = " ++ renderExitCode code ++ str "):\n"
              ++ joinLines ((accumState initDriverState pre).errors.take 20))))
    ∧ (∀ osErr, execSqlite (pre ++ [DriverEvent.launchError osErr])
        = some (DriverResult.rejectedLaunch osErr)) := by
  have h1 : execSqlite (pre ++ [DriverEvent.closed code])
      = some (onCloseEvent (accumState initDriverState pre) code) := by
    unfold execSqlite
    rw [driverRun_append_stream pre initDriverState hpre]
    rfl
  refine ⟨?_, ?_, ?_⟩
  · rw [h1, onCloseEvent_eq]
    by_cases hc : code = some 0
    · simp [hc]
    · simp [hc]
  · intro hc
    rw [h1, onCloseEvent_eq, if_neg hc]
  · intro osErr
    unfold execSqlite
    rw [driverRun_append_stream pre initDriverState hpre]
    rfl

/-- Witness for C7: one stderr chunk and exit code 1 produce the
documented rejection message. -/
theorem C7_witness :
    execSqlite [DriverEvent.stderrData (str "boom"), DriverEvent.closed (some 1)]
      = some (DriverResult.rejectedSqlite (str "SQLite error (Exit code = 1):\nboom")) :=
  (((C7_driver_settlement [DriverEvent.stderrData (str "boom")] (some 1)
    (by decide)).2.1) (by decide)).trans (by decide)

/-! ## Claim C1: cleanup on failure paths -/

theorem executeScript_snd (st : SysState) (o : SorterOptions) (eng : EngineBehavior) :
    (executeScript st o eng).2 = eng.result := by
  unfold executeScript
  split <;> rfl

theorem cleanup_log_mem (st : SysState) (o : SorterOptions) :
    str "Cleanup" ∈ (cleanup st o).1.log := by
  unfold cleanup
  split
  · rw [rmSync_log]
    simp [logMsg]
  · simp [logMsg]

/-- Claim C1 (amended): when the Executing phase raises, CleaningUp still
runs before the error is propagated (and the propagated error is the
executing error provided cleanup itself does not throw); but a failure in
Validating propagates immediately, without CleaningUp running — the
returned state is exactly the validation state, which contains no cleanup
log entry.  Script generation is pure and cannot raise. -/
theorem C1_cleanup_on_failure (st : SysState) (o : SorterOptions)
    (eng : EngineBehavior) (e : SortError) :
    ((validate st o).2 = some e → execute st o eng = ((validate st o).1, some e))
    ∧ ((validate st o).2 = none → eng.result = some e →
        str "Cleanup" ∈ (execute st o eng).1.log
        ∧ ((cleanup (executeScript (validate st o).1 o eng).1 o).2 = none →
            (execute st o eng).2 = some e)) := by
  rcases hv : validate st o with ⟨st1, r⟩
  constructor
  · intro h
    simp only at h
    subst h
    unfold execute
    rw [hv]
  · intro h he
    simp only at h
    subst h
    rcases hc : cleanup (executeScript st1 o eng).1 o with ⟨st3, ce⟩
    have hmem : str "Cleanup" ∈ st3.log := by
      have hm := cleanup_log_mem (executeScript st1 o eng).1 o
      rw [hc] at hm
      exact hm
    constructor
    · unfold execute
      rw [hv]
      simp only
      rw [hc]
      cases ce <;> simpa using hmem
    · intro hce
      simp only [hc] at hce
      subst hce
      unfold execute
      rw [hv]
      simp only
      rw [hc]
      simp [executeScript_snd, he]

/-- Witness for C1 (amended): a concrete engine failure is followed by
cleanup (the log gains the cleanup marker) and the engine error is the one
propagated. -/
theorem C1_witness :
    str "Cleanup" ∈ (execute { files := [str "in.csv", str "."], log := [] }
      { source := { filename := str "in.csv", delimiter := none },
        destination := { filename := str "out.csv", delimiter := none },
        schema := [], select := [],
        orderBy := [{ name := str "id", direction := none }],
        whereClause := none, offset := none, limit := none,
        sqlite := { filename := str "db.sqlite", keepDB := none, cli := none,
                    createIndex := none } }
      { createsDb := true, engineLog := [],
        result := some (SortError.engineFailure (str "boom")) }).1.log
    ∧ (execute { files := [str "in.csv", str "."], log := [] }
      { source := { filename := str "in.csv", delimiter := none },
        destination := { filename := str "out.csv", delimiter := none },
        schema := [], select := [],
        orderBy := [{ name := str "id", direction := none }],
        whereClause := none, offset := none, limit := none,
        sqlite := { filename := str "db.sqlite", keepDB := none, cli := none,
                    createIndex := none } }
      { createsDb := true, engineLog := [],
        result := some (SortError.engineFailure (str "boom")) }).2
      = some (SortError.engineFailure (str "boom")) := by
  have h := (C1_cleanup_on_failure { files := [str "in.csv", str "."], log := [] }
    { source := { filename := str "in.csv", delimiter := none },
      destination := { filename := str "out.csv", delimiter := none },
      schema := [], select := [],
      orderBy := [{ name := str "id", direction := none }],
      whereClause := none, offset := none, limit := none,
      sqlite := { filename := str "db.sqlite", keepDB := none, cli := none,
                  createIndex := none } }
    { createsDb := true, engineLog := [],
      result := some (SortError.engineFailure (str "boom")) }
    (SortError.engineFailure (str "boom"))).2 (by decide) rfl
  exact ⟨h.1, h.2 (by decide)⟩

/-- Counterexample for C1 as stated: on a validation failure (missing
source file) the error propagates without the CleaningUp phase running —
the pre-existing temporary database file is not deleted and no cleanup
marker is logged. -/
theorem C1_counterexample :
    (execute { files := [str "d", str "t.sqlite"], log := [] }
      { source := { filename := str "src.csv", delimiter := none },
        destination := { filename := str "d/out.csv", delimiter := none },
        schema := [], select := [],
        orderBy := [{ name := str "id", direction := none }],
        whereClause := none, offset := none, limit := none,
        sqlite := { filename := str "t.sqlite", keepDB := none, cli := none,
                    createIndex := none } }
      { createsDb := false, engineLog := [], result := none }).2
      = some (SortError.missingFile (str "src.csv"))
    ∧ str "Cleanup" ∉ (execute { files := [str "d", str "t.sqlite"], log := [] }
      { source := { filename := str "src.csv", delimiter := none },
        destination := { filename := str "d/out.csv", delimiter := none },
        schema := [], select := [],
        orderBy := [{ name := str "id", direction := none }],
        whereClause := none, offset := none, limit := none,
        sqlite := { filename := str "t.sqlite", keepDB := none, cli := none,
                    createIndex := none } }
      { createsDb := false, engineLog := [], result := none }).1.log
    ∧ str "t.sqlite" ∈ (execute { files := [str "d", str "t.sqlite"], log := [] }
      { source := { filename := str "src.csv", delimiter := none },
        destination := { filename := str "d/out.csv", delimiter := none },
        schema := [], select := [],
        orderBy := [{ name := str "id", direction := none }],
        whereClause := none, offset := none, limit := none,
        sqlite := { filename := str "t.sqlite", keepDB := none, cli := none,
                    createIndex := none } }
      { createsDb := false, engineLog := [], result := none }).1.files := by
  exact ⟨by decide, by decide, by decide⟩

/-! ## Claim C2: the missing-limit error and the pre-run deletions -/

/-- Claim C2 (amended): when `offset` is truthy and `limit` is not and the
earlier checks pass, validation fails with the missing-limit error — but
only after the pre-existing destination file and temporary database file
have already been deleted: at the moment the error is returned, neither
path exists any more. -/
theorem C2_missing_limit_after_deletes (st : SysState) (o : SorterOptions)
    (hnd : st.files.Nodup)
    (hchecks : validateChecks st o = none)
    (hoff : truthyNum o.offset = true)
    (hlim : truthyNum o.limit = false) :
    (validate st o).2 = some SortError.missingLimit
    ∧ o.destination.filename ∉ (validate st o).1.files
    ∧ o.sqlite.filename ∉ (validate st o).1.files := by
  have hval : validate st o = ((validateDeletes st o).1, some SortError.missingLimit) := by
    unfold validate
    rw [hchecks]
    rcases hvd : validateDeletes st o with ⟨st1, e1⟩
    have he1 : e1 = none := by
      have h := validateDeletes_snd st o
      rw [hvd] at h
      exact h
    subst he1
    simp only
    rw [if_pos (show (truthyNum o.offset && !truthyNum o.limit) = true by
      rw [hoff, hlim]; rfl)]
  refine ⟨by rw [hval], ?_, ?_⟩
  · rw [hval]
    simp only
    rw [validateDeletes_files]
    intro hmem
    exact absurd (List.erase_subset _ _ hmem) hnd.not_mem_erase
  · rw [hval]
    simp only
    rw [validateDeletes_files]
    exact (hnd.erase _).not_mem_erase

/-- Witness for C2 (amended) at a concrete job. -/
theorem C2_witness :
    (validate
      { files := [str "inw.csv", str ".", str "destw.csv", str "dbw.sqlite"],
        log := [] }
      { source := { filename := str "inw.csv", delimiter := none },
        destination := { filename := str "destw.csv", delimiter := none },
        schema := [], select := [],
        orderBy := [{ name := str "id", direction := none }],
        whereClause := none, offset := some 1, limit := none,
        sqlite := { filename := str "dbw.sqlite", keepDB := none, cli := none,
                    createIndex := none } }).2 = some SortError.missingLimit
    ∧ str "destw.csv" ∉ (validate
      { files := [str "inw.csv", str ".", str "destw.csv", str "dbw.sqlite"],
        log := [] }
      { source := { filename := str "inw.csv", delimiter := none },
        destination := { filename := str "destw.csv", delimiter := none },
        schema := [], select := [],
        orderBy := [{ name := str "id", direction := none }],
        whereClause := none, offset := some 1, limit := none,
        sqlite := { filename := str "dbw.sqlite", keepDB := none, cli := none,
                    createIndex := none } }).1.files
    ∧ str "dbw.sqlite" ∉ (validate
      { files := [str "inw.csv", str ".", str "destw.csv", str "dbw.sqlite"],
        log := [] }
      { source := { filename := str "inw.csv", delimiter := none },
        destination := { filename := str "destw.csv", delimiter := none },
        schema := [], select := [],
        orderBy := [{ name := str "id", direction := none }],
        whereClause := none, offset := some 1, limit := none,
        sqlite := { filename := str "dbw.sqlite", keepDB := none, cli := none,
                    createIndex := none } }).1.files :=
  C2_missing_limit_after_deletes
    { files := [str "inw.csv", str ".", str "destw.csv", str "dbw.sqlite"], log := [] }
    { source := { filename := str "inw.csv", delimiter := none },
      destination := { filename := str "destw.csv", delimiter := none },
      schema := [], select := [],
      orderBy := [{ name := str "id", direction := none }],
      whereClause := none, offset := some 1, limit := none,
      sqlite := { filename := str "dbw.sqlite", keepDB := none, cli := none,
                  createIndex := none } }
    (by decide) (by decide) (by decide) (by decide)

/-- Counterexample for C2 as stated: with a pre-existing destination file
and database file, a job with offset but no limit does fail with the
missing-limit error, yet both files have already been deleted (and their
deletion logged) by the time the error is raised. -/
theorem C2_counterexample :
    str "dest2.csv" ∈ ({ files := [str "in2.csv", str ".", str "dest2.csv", str "db2.sqlite"], log := [] } : SysState).files
    ∧ str "db2.sqlite" ∈ ({ files := [str "in2.csv", str ".", str "dest2.csv", str "db2.sqlite"], log := [] } : SysState).files
    ∧ (validate
      { files := [str "in2.csv", str ".", str "dest2.csv", str "db2.sqlite"],
        log := [] }
      { source := { filename := str "in2.csv", delimiter := none },
        destination := { filename := str "dest2.csv", delimiter := none },
        schema := [], select := [],
        orderBy := [{ name := str "id", direction := none }],
        whereClause := none, offset := some 1, limit := none,
        sqlite := { filename := str "db2.sqlite", keepDB := none, cli := none,
                    createIndex := none } })
      = ({ files := [str "in2.csv", str "."],
           log := [str "Delete destination dest2.csv", str "Delete SQLite db db2.sqlite"] },
         some SortError.missingLimit) := by
  exact ⟨by decide, by decide, by decide⟩

/-! ## Claim C10: unconditional deletion in cleanup -/

theorem validate_ok_files (st : SysState) (o : SorterOptions)
    (h : (validate st o).2 = none) :
    (validate st o).1.files
      = (st.files.erase o.destination.filename).erase o.sqlite.filename := by
  unfold validate at h ⊢
  cases hc : validateChecks st o with
  | some e =>
    rw [hc] at h
    simp at h
  | none =>
    rcases hvd : validateDeletes st o with ⟨st1, e1⟩
    have he1 : e1 = none := by
      have hh := validateDeletes_snd st o
      rw [hvd] at hh
      exact hh
    subst he1
    have hf : st1.files = (st.files.erase o.destination.filename).erase o.sqlite.filename := by
      have hh := validateDeletes_files st o
      rw [hvd] at hh
      exact hh
    simp only [hvd]
    split <;> exact hf

theorem executeScript_files_of_not_creates (st : SysState) (o : SorterOptions)
    (eng : EngineBehavior) (h : eng.createsDb = false) :
    (executeScript st o eng).1.files = st.files := by
  unfold executeScript
  simp [h, logMsg]

/-- Claim C10: cleanup with `keepDB` not equal to true deletes the
database file unconditionally — if the file does not exist, cleanup itself
raises the `ENOENT` error; consequently, when the engine fails without
having created the database file, the error reaching the caller is the
cleanup error, not the original executing error. -/
theorem C10_cleanup_unconditional (st : SysState) (o : SorterOptions)
    (eng : EngineBehavior) (e : SortError)
    (hnd : st.files.Nodup)
    (hv : (validate st o).2 = none)
    (hkeep : o.sqlite.keepDB ≠ some true)
    (hdb : eng.createsDb = false)
    (_hres : eng.result = some e) :
    (execute st o eng).2 = some (SortError.enoent o.sqlite.filename)
    ∧ (∀ st2 : SysState, o.sqlite.filename ∉ st2.files →
        (cleanup st2 o).2 = some (SortError.enoent o.sqlite.filename))
    ∧ (e ≠ SortError.enoent o.sqlite.filename → (execute st o eng).2 ≠ some e) := by
  have hclean : ∀ st2 : SysState, o.sqlite.filename ∉ st2.files →
      (cleanup st2 o).2 = some (SortError.enoent o.sqlite.filename) := by
    intro st2 h2
    unfold cleanup
    rw [if_pos hkeep]
    unfold rmSync
    rw [if_neg (by simpa [logMsg] using h2)]
  have hnm : o.sqlite.filename ∉ (validate st o).1.files := by
    rw [validate_ok_files st o hv]
    exact (hnd.erase _).not_mem_erase
  have hmain : (execute st o eng).2 = some (SortError.enoent o.sqlite.filename) := by
    rcases hvp : validate st o with ⟨st1, r⟩
    have hr : r = none := by
      rw [hvp] at hv
      exact hv
    subst hr
    rw [hvp] at hnm
    simp only at hnm
    have hex : (executeScript st1 o eng).1.files = st1.files :=
      executeScript_files_of_not_creates st1 o eng hdb
    have hcl : (cleanup (executeScript st1 o eng).1 o).2
        = some (SortError.enoent o.sqlite.filename) := by
      apply hclean
      rw [hex]
      exact hnm
    unfold execute
    rw [hvp]
    simp only
    rcases hcc : cleanup (executeScript st1 o eng).1 o with ⟨st3, ce⟩
    rw [hcc] at hcl
    simp only at hcl
    subst hcl
    rfl
  refine ⟨hmain, hclean, fun hne heq => hne ?_⟩
  rw [hmain] at heq
  exact (Option.some_inj.mp heq).symm

/-- Witness for C10: a launch failure with no database file created leads
the caller to receive the cleanup `ENOENT` error instead of the launch
error. -/
theorem C10_witness :
    (execute { files := [str "inx.csv", str "."], log := [] }
      { source := { filename := str "inx.csv", delimiter := none },
        destination := { filename := str "outx.csv", delimiter := none },
        schema := [], select := [],
        orderBy := [{ name := str "id", direction := none }],
        whereClause := none, offset := none, limit := none,
        sqlite := { filename := str "dbx.sqlite", keepDB := none, cli := none,
                    createIndex := none } }
      { createsDb := false, engineLog := [],
        result := some (SortError.launchFailure (str "spawn unknown-cli ENOENT")) }).2
      = some (SortError.enoent (str "dbx.sqlite")) :=
  (C10_cleanup_unconditional { files := [str "inx.csv", str "."], log := [] }
    { source := { filename := str "inx.csv", delimiter := none },
      destination := { filename := str "outx.csv", delimiter := none },
      schema := [], select := [],
      orderBy := [{ name := str "id", direction := none }],
      whereClause := none, offset := none, limit := none,
      sqlite := { filename := str "dbx.sqlite", keepDB := none, cli := none,
                  createIndex := none } }
    { createsDb := false, engineLog := [],
      result := some (SortError.launchFailure (str "spawn unknown-cli ENOENT")) }
    (SortError.launchFailure (str "spawn unknown-cli ENOENT"))
    (by decide) (by decide) (by decide) (by decide) (by decide)).1

/-- Witness for the trim behaviour in C3 at concrete inputs (the amended
theorem has no top-level hypothesis, but the rendering facts are exhibited
on concrete data through it). -/
theorem C3_witness :
    orderByItem { name := str "id", direction := none } = str "id"
    ∧ orderByItem { name := str "id", direction := some SortDirection.ASC }
        = str "id ASC" := by
  have h := C3_direction_rendering (str "x") (str "id") SortDirection.ASC
  exact ⟨h.2.1.trans (by decide), h.2.2.trans (by decide)⟩

/-- Counterexample for C3 as stated: the normalizer does not default the
direction to `ASC` (it leaves it unset), and an explicitly supplied `ASC`
direction is rendered into the query, so the order-by clause can contain
an explicit `ASC` token. -/
theorem C3_counterexample :
    (convertSchema (Sum.inl (str "a"))).direction ≠ some SortDirection.ASC
    ∧ selectStatement
        { source := { filename := str "s.csv", delimiter := none },
          destination := { filename := str "d.csv", delimiter := none },
          schema := [], select := [],
          orderBy := [{ name := str "a", direction := some SortDirection.ASC }],
          whereClause := none, offset := none, limit := none,
          sqlite := { filename := str "t.sqlite", keepDB := none, cli := none,
                      createIndex := none } }
      = str "select * from DATA order by a ASC;" := by
  exact ⟨by decide, by decide⟩

/-! ## Script-line classification (for claims C5 and C8)

Every line pushed by `generateScript` falls into one of a fixed set of
shapes; classifying lines by a literal leading token lets the separator
directives, the import directive, and the table-creation statement of the
script be characterized exactly. -/

/-- Does the line start with the separator-directive token? -/
def isSepLine (l : Str) : Bool := (str ".separator").isPrefixOf l

/-- Does the line start with the import-directive token? -/
def isImportDirectiveLine (l : Str) : Bool := (str ".import").isPrefixOf l

/-- Does the line start with the table-creation token? -/
def isCreateTableLine (l : Str) : Bool := (str "CREATE").isPrefixOf l

theorem schemaColLines_shape (n : Nat) :
    ∀ (k : Nat) (cols : List SchemaColumn) (x : Str),
      x ∈ schemaColLines n k cols → ∃ t, x = str "  " ++ t := by
  intro k cols
  induction cols generalizing k with
  | nil => intro x hx; simp [schemaColLines] at hx
  | cons c rest ih =>
    intro x hx
    unfold schemaColLines at hx
    rcases List.mem_cons.mp hx with rfl | hxr
    · exact ⟨_, rfl⟩
    · exact ih (k + 1) x hxr

theorem isSepLine_dir (d : Str) : isSepLine (sepDirectiveFor d) = true := by
  unfold sepDirectiveFor isSepLine
  split
  · decide
  · exact prefixOf_append_of_prefixOf _ _ _ (by decide)

theorem isImportDirectiveLine_dir (d : Str) :
    isImportDirectiveLine (sepDirectiveFor d) = false := by
  unfold sepDirectiveFor isImportDirectiveLine
  split
  · decide
  · exact prefixOf_false_append _ _ _ 1 (by decide) (by decide) (by decide)

theorem isCreateTableLine_dir (d : Str) :
    isCreateTableLine (sepDirectiveFor d) = false := by
  unfold sepDirectiveFor isCreateTableLine
  split
  · decide
  · exact prefixOf_false_append _ _ _ 0 (by decide) (by decide) (by decide)

theorem filter_schemaSection (p : Str → Bool)
    (hcreate : p (str "CREATE TABLE DATA(") = false)
    (hclose : p (str ");") = false)
    (hcol : ∀ t, p (str "  " ++ t) = false)
    (schema : List SchemaColumn) :
    (schemaSection schema).filter p = [] := by
  unfold schemaSection
  split
  · rw [List.filter_cons_of_neg (by rw [hcreate]; simp)]
    rw [List.filter_append]
    rw [List.filter_eq_nil_iff.mpr (by
      intro x hx
      obtain ⟨t, rfl⟩ := schemaColLines_shape schema.length 0 schema x hx
      rw [hcol t]
      simp)]
    simp [List.filter_cons, hclose]
  · rfl

theorem filter_sourceSepLines_self (d : Option Str) :
    (sourceSepLines d).filter isSepLine = sourceSepLines d := by
  rcases d with _ | dd
  · rfl
  · rw [show sourceSepLines (some dd)
        = if dd.isEmpty then [] else [sepDirectiveFor dd] from rfl]
    split
    · rfl
    · rw [List.filter_singleton, isSepLine_dir]
      rfl

theorem filter_destSepLines_self (d1 d2 : Option Str) :
    (destSepLines d1 d2).filter isSepLine = destSepLines d1 d2 := by
  unfold destSepLines
  split
  · rcases d1 with _ | dd
    · rfl
    · rw [List.filter_singleton, isSepLine_dir]
      rfl
  · split
    · decide
    · rfl

theorem filter_sourceSepLines_none (p : Str → Bool)
    (hdir : ∀ d, p (sepDirectiveFor d) = false) (d : Option Str) :
    (sourceSepLines d).filter p = [] := by
  rcases d with _ | dd
  · rfl
  · rw [show sourceSepLines (some dd)
        = if dd.isEmpty then [] else [sepDirectiveFor dd] from rfl]
    split
    · rfl
    · rw [List.filter_singleton, hdir]
      rfl

theorem filter_destSepLines_none (p : Str → Bool)
    (hdir : ∀ d, p (sepDirectiveFor d) = false)
    (hcomma : p (str ".separator \",\"") = false) (d1 d2 : Option Str) :
    (destSepLines d1 d2).filter p = [] := by
  unfold destSepLines
  split
  · rcases d1 with _ | dd
    · rfl
    · rw [List.filter_singleton, hdir]
      rfl
  · split
    · rw [List.filter_singleton, hcomma]
      rfl
    · rfl

theorem filter_indexLines (p : Str → Bool)
    (hidx : ∀ t, p (str "create index DATA_IDX on DATA (" ++ t) = false)
    (o : SorterOptions) : (indexLines o).filter p = [] := by
  unfold indexLines
  split
  · rw [List.filter_singleton, hidx]
    rfl
  · rfl

theorem isSepLine_importLine (n : Nat) (f : Str) :
    isSepLine (importLine n f) = false := by
  unfold importLine isSepLine
  exact prefixOf_false_append _ _ _ 1 (by decide) (by decide) (by decide)

theorem isImportDirectiveLine_importLine (n : Nat) (f : Str) :
    isImportDirectiveLine (importLine n f) = true := by
  unfold importLine isImportDirectiveLine
  exact prefixOf_append_of_prefixOf _ _ _ (by decide)

theorem isCreateTableLine_importLine (n : Nat) (f : Str) :
    isCreateTableLine (importLine n f) = false := by
  unfold importLine isCreateTableLine
  exact prefixOf_false_append _ _ _ 0 (by decide) (by decide) (by decide)

theorem isSepLine_select (o : SorterOptions) :
    isSepLine (selectStatement o) = false := by
  unfold selectStatement isSepLine
  exact prefixOf_false_append _ _ _ 0 (by decide) (by decide) (by decide)

theorem isImportDirectiveLine_select (o : SorterOptions) :
    isImportDirectiveLine (selectStatement o) = false := by
  unfold selectStatement isImportDirectiveLine
  exact prefixOf_false_append _ _ _ 0 (by decide) (by decide) (by decide)

theorem isCreateTableLine_select (o : SorterOptions) :
    isCreateTableLine (selectStatement o) = false := by
  unfold selectStatement isCreateTableLine
  exact prefixOf_false_append _ _ _ 0 (by decide) (by decide) (by decide)

theorem isSepLine_output (f : Str) :
    isSepLine (str ".output \"" ++ (f ++ str "\"")) = false := by
  unfold isSepLine
  exact prefixOf_false_append _ _ _ 1 (by decide) (by decide) (by decide)

theorem isImportDirectiveLine_output (f : Str) :
    isImportDirectiveLine (str ".output \"" ++ (f ++ str "\"")) = false := by
  unfold isImportDirectiveLine
  exact prefixOf_false_append _ _ _ 1 (by decide) (by decide) (by decide)

theorem isCreateTableLine_output (f : Str) :
    isCreateTableLine (str ".output \"" ++ (f ++ str "\"")) = false := by
  unfold isCreateTableLine
  exact prefixOf_false_append _ _ _ 0 (by decide) (by decide) (by decide)

theorem notCol_isSepLine (t : Str) : isSepLine (str "  " ++ t) = false := by
  unfold isSepLine
  exact prefixOf_false_append _ _ _ 0 (by decide) (by decide) (by decide)

theorem notCol_isImportDirectiveLine (t : Str) :
    isImportDirectiveLine (str "  " ++ t) = false := by
  unfold isImportDirectiveLine
  exact prefixOf_false_append _ _ _ 0 (by decide) (by decide) (by decide)

theorem notCol_isCreateTableLine (t : Str) :
    isCreateTableLine (str "  " ++ t) = false := by
  unfold isCreateTableLine
  exact prefixOf_false_append _ _ _ 0 (by decide) (by decide) (by decide)

theorem notIdx_isSepLine (t : Str) :
    isSepLine (str "create index DATA_IDX on DATA (" ++ t) = false := by
  unfold isSepLine
  exact prefixOf_false_append _ _ _ 0 (by decide) (by decide) (by decide)

theorem notIdx_isImportDirectiveLine (t : Str) :
    isImportDirectiveLine (str "create index DATA_IDX on DATA (" ++ t) = false := by
  unfold isImportDirectiveLine
  exact prefixOf_false_append _ _ _ 0 (by decide) (by decide) (by decide)

theorem notIdx_isCreateTableLine (t : Str) :
    isCreateTableLine (str "create index DATA_IDX on DATA (" ++ t) = false := by
  unfold isCreateTableLine
  exact prefixOf_false_append _ _ _ 0 (by decide) (by decide) (by decide)

/-- The separator directives of a generated script are exactly the
source-separator block followed by the export-separator block. -/
theorem filter_isSepLine (o : SorterOptions) :
    (generateScriptLines o).filter isSepLine
      = sourceSepLines o.source.delimiter
        ++ destSepLines o.destination.delimiter o.source.delimiter := by
  unfold generateScriptLines
  simp only [List.filter_append]
  rw [filter_schemaSection isSepLine (by decide) (by decide) notCol_isSepLine o.schema]
  rw [show List.filter isSepLine [str ".mode csv"] = [] from by decide]
  rw [filter_sourceSepLines_self]
  rw [show List.filter isSepLine [importLine o.schema.length o.source.filename] = [] from by
    rw [List.filter_singleton, isSepLine_importLine]; rfl]
  rw [filter_indexLines isSepLine notIdx_isSepLine o]
  rw [filter_destSepLines_self]
  rw [show List.filter isSepLine [str ".headers on",
      str ".output \"" ++ (o.destination.filename ++ str "\"")] = [] from by
    rw [List.filter_cons_of_neg (by decide), List.filter_singleton, isSepLine_output]; rfl]
  rw [show List.filter isSepLine [selectStatement o] = [] from by
    rw [List.filter_singleton, isSepLine_select]; rfl]
  rw [show List.filter isSepLine [str ".quit"] = [] from by decide]
  simp

/-- The import directives of a generated script are exactly the single
expected one (with the skip flag exactly when a schema is present). -/
theorem filter_isImportDirectiveLine (o : SorterOptions) :
    (generateScriptLines o).filter isImportDirectiveLine
      = [importLine o.schema.length o.source.filename] := by
  unfold generateScriptLines
  simp only [List.filter_append]
  rw [filter_schemaSection isImportDirectiveLine (by decide) (by decide)
    notCol_isImportDirectiveLine o.schema]
  rw [show List.filter isImportDirectiveLine [str ".mode csv"] = [] from by decide]
  rw [filter_sourceSepLines_none isImportDirectiveLine isImportDirectiveLine_dir]
  rw [show List.filter isImportDirectiveLine [importLine o.schema.length o.source.filename]
      = [importLine o.schema.length o.source.filename] from by
    rw [List.filter_singleton, isImportDirectiveLine_importLine]; rfl]
  rw [filter_indexLines isImportDirectiveLine notIdx_isImportDirectiveLine o]
  rw [filter_destSepLines_none isImportDirectiveLine isImportDirectiveLine_dir (by decide)]
  rw [show List.filter isImportDirectiveLine [str ".headers on",
      str ".output \"" ++ (o.destination.filename ++ str "\"")] = [] from by
    rw [List.filter_cons_of_neg (by decide), List.filter_singleton,
      isImportDirectiveLine_output]; rfl]
  rw [show List.filter isImportDirectiveLine [selectStatement o] = [] from by
    rw [List.filter_singleton, isImportDirectiveLine_select]; rfl]
  rw [show List.filter isImportDirectiveLine [str ".quit"] = [] from by decide]
  simp

/-- The table-creation lines of a generated script: exactly one when a
schema is present, none otherwise. -/
theorem filter_isCreateTableLine (o : SorterOptions) :
    (generateScriptLines o).filter isCreateTableLine
      = if o.schema.length > 0 then [str "CREATE TABLE DATA("] else [] := by
  have hschema : (schemaSection o.schema).filter isCreateTableLine
      = if o.schema.length > 0 then [str "CREATE TABLE DATA("] else [] := by
    unfold schemaSection
    split
    · rename_i h
      rw [List.filter_cons_of_pos (by decide)]
      rw [List.filter_append]
      rw [List.filter_eq_nil_iff.mpr (fun x hx => by
        obtain ⟨t, rfl⟩ := schemaColLines_shape o.schema.length 0 o.schema x hx
        rw [notCol_isCreateTableLine t]
        simp)]
      rw [show List.filter isCreateTableLine [str ");"] = [] from by decide]
      simp
    · rfl
  unfold generateScriptLines
  simp only [List.filter_append]
  rw [hschema]
  rw [show List.filter isCreateTableLine [str ".mode csv"] = [] from by decide]
  rw [filter_sourceSepLines_none isCreateTableLine isCreateTableLine_dir]
  rw [show List.filter isCreateTableLine [importLine o.schema.length o.source.filename]
      = [] from by
    rw [List.filter_singleton, isCreateTableLine_importLine]; rfl]
  rw [filter_indexLines isCreateTableLine notIdx_isCreateTableLine o]
  rw [filter_destSepLines_none isCreateTableLine isCreateTableLine_dir (by decide)]
  rw [show List.filter isCreateTableLine [str ".headers on",
      str ".output \"" ++ (o.destination.filename ++ str "\"")] = [] from by
    rw [List.filter_cons_of_neg (by decide), List.filter_singleton,
      isCreateTableLine_output]; rfl]
  rw [show List.filter isCreateTableLine [selectStatement o] = [] from by
    rw [List.filter_singleton, isCreateTableLine_select]; rfl]
  rw [show List.filter isCreateTableLine [str ".quit"] = [] from by decide]
  simp

theorem schemaColLines_length (n : Nat) :
    ∀ (cols : List SchemaColumn) (k : Nat),
      (schemaColLines n k cols).length = cols.length := by
  intro cols
  induction cols with
  | nil => intro k; rfl
  | cons c rest ih =>
    intro k
    unfold schemaColLines
    simp [ih (k + 1)]

theorem schemaColLines_getElem (n : Nat) :
    ∀ (cols : List SchemaColumn) (k i : Nat) (col : SchemaColumn),
      cols[i]? = some col →
      (schemaColLines n k cols)[i]?
        = some (str "  " ++ (toColumnName col.name ++ (str " "
            ++ (colTypeToken col.type
              ++ (if k + i < n - 1 then str "," else []))))) := by
  intro cols
  induction cols with
  | nil => intro k i col h; simp at h
  | cons c rest ih =>
    intro k i col h
    cases i with
    | zero =>
      rw [List.getElem?_cons_zero] at h
      have hc : c = col := by injection h
      subst hc
      unfold schemaColLines
      rw [List.getElem?_cons_zero]
      simp
    | succ j =>
      unfold schemaColLines
      rw [List.getElem?_cons_succ]
      rw [List.getElem?_cons_succ] at h
      have hh := ih (k + 1) j col h
      rw [hh]
      have harith : k + 1 + j = k + (j + 1) := by omega
      rw [harith]

theorem colTypeToken_eq (t : Option ColumnType) :
    colTypeToken t = if t = some ColumnType.number then str "NUMERIC" else str "TEXT" := by
  rcases t with _ | ct
  · simp [colTypeToken]
  · cases ct <;> simp [colTypeToken]

theorem schemaSection_pos (schema : List SchemaColumn) (h : schema.length > 0) :
    schemaSection schema
      = str "CREATE TABLE DATA(" :: (schemaColLines schema.length 0 schema ++ [str ");"]) := by
  unfold schemaSection
  rw [if_pos h]

/-! ## Claim C8: schema-driven table creation and import flag -/

/-- Claim C8: the generated script has a table-creation statement exactly
when a schema was supplied; the i-th column declaration (at line index
1 + i, right after the table-creation opener) is the quoted name followed
by `NUMERIC` for the number type and `TEXT` otherwise, with a comma on all
but the last declaration, in schema order; and the script's single import
directive carries the skip-first-line flag exactly when a schema was
supplied. -/
theorem C8_schema_and_import (o : SorterOptions) :
    (str "CREATE TABLE DATA(" ∈ generateScriptLines o ↔ o.schema ≠ [])
    ∧ (∀ (i : Nat) (col : SchemaColumn), o.schema[i]? = some col →
        (generateScriptLines o)[1 + i]?
          = some (str "  " ++ (toColumnName col.name ++ (str " "
              ++ ((if col.type = some ColumnType.number then str "NUMERIC"
                    else str "TEXT")
                ++ (if i + 1 < o.schema.length then str "," else []))))))
    ∧ ((generateScriptLines o).filter isImportDirectiveLine
        = [str ".import " ++ ((if o.schema.length > 0 then str "--skip 1 " else [])
            ++ (str "\"" ++ (o.source.filename ++ str "\" DATA")))]) := by
  refine ⟨⟨fun hm => ?_, fun hne => ?_⟩, fun i col h => ?_, ?_⟩
  · by_contra hne
    have hlen : ¬ o.schema.length > 0 := by
      rw [hne]
      simp
    have h2 : str "CREATE TABLE DATA(" ∈ (generateScriptLines o).filter isCreateTableLine :=
      List.mem_filter.mpr ⟨hm, by decide⟩
    rw [filter_isCreateTableLine o, if_neg hlen] at h2
    simp at h2
  · have hlen : o.schema.length > 0 := List.length_pos.mpr hne
    have h2 : str "CREATE TABLE DATA(" ∈ (generateScriptLines o).filter isCreateTableLine := by
      rw [filter_isCreateTableLine o, if_pos hlen]
      simp
    exact (List.mem_filter.mp h2).1
  · have hi : i < o.schema.length := by
      by_contra hc
      push_neg at hc
      rw [List.getElem?_eq_none hc] at h
      exact Option.noConfusion h
    have hpos : o.schema.length > 0 := by omega
    unfold generateScriptLines
    rw [schemaSection_pos o.schema hpos]
    rw [List.cons_append]
    rw [Nat.add_comm 1 i]
    rw [List.getElem?_cons_succ]
    rw [List.append_assoc]
    rw [List.getElem?_append_left (by rw [schemaColLines_length]; exact hi)]
    rw [schemaColLines_getElem o.schema.length o.schema 0 i col h]
    rw [colTypeToken_eq]
    simp only [show (0 + i < o.schema.length - 1) ↔ (i + 1 < o.schema.length) from
      by omega]
  · rw [filter_isImportDirectiveLine o]
    rfl

/-- Witness for C8: on a two-column schema, the first declaration line has
a trailing comma and the TEXT type. -/
theorem C8_witness :
    (generateScriptLines
      { source := { filename := str "a.csv", delimiter := none },
        destination := { filename := str "b.csv", delimiter := none },
        schema := [{ name := str "id", type := none },
                   { name := str "age", type := some ColumnType.number }],
        select := [],
        orderBy := [{ name := str "id", direction := none }],
        whereClause := none, offset := none, limit := none,
        sqlite := { filename := str "c.sqlite", keepDB := none, cli := none,
                    createIndex := none } })[1]? = some (str "  id TEXT,") :=
  ((C8_schema_and_import
    { source := { filename := str "a.csv", delimiter := none },
      destination := { filename := str "b.csv", delimiter := none },
      schema := [{ name := str "id", type := none },
                 { name := str "age", type := some ColumnType.number }],
      select := [],
      orderBy := [{ name := str "id", direction := none }],
      whereClause := none, offset := none, limit := none,
      sqlite := { filename := str "c.sqlite", keepDB := none, cli := none,
                  createIndex := none } }).2.1 0
    { name := str "id", type := none } (by decide)).trans (by decide)

/-! ## Claim C5: separator directive emission -/

/-- Claim C5 (amended): the separator directives of the generated script
are exactly the import-separator block followed by the export-separator
block; the import-separator directive is emitted whenever a nonempty
source delimiter is supplied — including an explicitly supplied default
comma; before export, a directive for the destination delimiter is
emitted when a nonempty destination delimiter is supplied, otherwise a
reset-to-comma directive is emitted exactly when a nonempty source
delimiter was supplied; and a tab delimiter is emitted as a literal tab
byte inside the quotes (the escape-form special case in the source
produces the same literal tab byte). -/
theorem C5_separator_emission (o : SorterOptions) :
    ((generateScriptLines o).filter isSepLine
      = sourceSepLines o.source.delimiter
        ++ destSepLines o.destination.delimiter o.source.delimiter)
    ∧ sourceSepLines (some (str ",")) = [str ".separator \",\""]
    ∧ sepDirectiveFor (str "\t") = str ".separator \"\t\""
    ∧ '\t' ∈ sepDirectiveFor (str "\t")
    ∧ '\\' ∉ sepDirectiveFor (str "\t")
    ∧ (truthyStr o.destination.delimiter = false → truthyStr o.source.delimiter = true →
        destSepLines o.destination.delimiter o.source.delimiter
          = [str ".separator \",\""])
    ∧ (truthyStr o.destination.delimiter = false → truthyStr o.source.delimiter = false →
        destSepLines o.destination.delimiter o.source.delimiter = []) := by
  refine ⟨filter_isSepLine o, by decide, by decide, by decide, by decide, ?_, ?_⟩
  · intro h1 h2
    unfold destSepLines
    rw [if_neg (by simp [h1]), if_pos (by simp [h2])]
  · intro h1 h2
    unfold destSepLines
    rw [if_neg (by simp [h1]), if_neg (by simp [h2])]

/-- Witness for C5 (amended): with no destination delimiter and a pipe
source delimiter, the export block is the reset-to-comma directive. -/
theorem C5_witness :
    destSepLines none (some (str "|")) = [str ".separator \",\""] :=
  (C5_separator_emission
    { source := { filename := str "p.psv", delimiter := some (str "|") },
      destination := { filename := str "q.csv", delimiter := none },
      schema := [], select := [],
      orderBy := [{ name := str "id", direction := none }],
      whereClause := none, offset := none, limit := none,
      sqlite := { filename := str "r.sqlite", keepDB := none, cli := none,
                  createIndex := none } }).2.2.2.2.2.1 (by decide) (by decide)

/-- Counterexample for C5 as stated: an explicitly supplied default comma
source delimiter still produces a separator directive, and a tab delimiter
is emitted as a literal tab byte — the two-character escape form never
appears. -/
theorem C5_counterexample :
    str ".separator \",\"" ∈ generateScriptLines
      { source := { filename := str "s.csv", delimiter := some (str ",") },
        destination := { filename := str "d.csv", delimiter := none },
        schema := [], select := [],
        orderBy := [{ name := str "a", direction := none }],
        whereClause := none, offset := none, limit := none,
        sqlite := { filename := str "t.sqlite", keepDB := none, cli := none,
                    createIndex := none } }
    ∧ ({ source := { filename := str "s.csv", delimiter := some (str ",") },
         destination := { filename := str "d.csv", delimiter := none },
         schema := [], select := [],
         orderBy := [{ name := str "a", direction := none }],
         whereClause := none, offset := none, limit := none,
         sqlite := { filename := str "t.sqlite", keepDB := none, cli := none,
                     createIndex := none } } : SorterOptions).source.delimiter
        = some (str ",")
    ∧ str ".separator \"\t\"" ∈ generateScriptLines
      { source := { filename := str "s.tsv", delimiter := some (str "\t") },
        destination := { filename := str "d.csv", delimiter := none },
        schema := [], select := [],
        orderBy := [{ name := str "a", direction := none }],
        whereClause := none, offset := none, limit := none,
        sqlite := { filename := str "t.sqlite", keepDB := none, cli := none,
                    createIndex := none } }
    ∧ str ".separator \"\\t\"" ∉ generateScriptLines
      { source := { filename := str "s.tsv", delimiter := some (str "\t") },
        destination := { filename := str "d.csv", delimiter := none },
        schema := [], select := [],
        orderBy := [{ name := str "a", direction := none }],
        whereClause := none, offset := none, limit := none,
        sqlite := { filename := str "t.sqlite", keepDB := none, cli := none,
                    createIndex := none } } := by
  exact ⟨by decide, by decide, by decide, by decide⟩

end CsvSorter
